import Mathlib

/-!
# Visual Intelligence System — verification of the indexing and query pipeline

Shallow embedding of the core of the `Visual-intelligence-system` repository:
the query pipeline (`src/api/main.py` `search_images`, `src/api/services/qdrant_client.py`
`QdrantService`, `src/api/services/explanation_generator.py` `ExplanationGenerator`),
the health probes, and the indexing script (`src/scripts/generate_embeddings.py`).

External collaborators (the Qdrant client, the CLIP model, the OpenAI API, the
filesystem) are modelled as explicit outcome parameters: a call that can raise an
exception is a value of `Except String α` (`.error` = the call raised), and a
function-valued parameter stands for the collaborator itself.  Wall-clock time is
passed in as the `elapsed` parameter.  Floating-point scores and embedding
components are modelled as rationals: no claim depends on float arithmetic, only
on values being carried through unchanged.
-/

namespace VIS

/-- A hit returned by the Qdrant client's `search` call: the code reads
`result.id`, `result.score` and `result.payload["filename"]`, so the payload is
modelled by the one key the core reads. -/
structure ScoredPoint where
  id : Nat
  score : Rat
  payload_filename : String
deriving DecidableEq

/-- `SearchRequest` from `src/api/core/models.py`: `query: str`, `top_k: int = 5`.
Pydantic puts no bound on `top_k` — any integer, including a non-positive one,
is accepted, so the field is an unrestricted `Int`. -/
structure SearchRequest where
  query : String
  top_k : Int := 5
deriving DecidableEq

/-- `SearchResult` from `src/api/core/models.py`. -/
structure SearchResult where
  image_id : String
  filename : String
  score : Rat
  explanation : Option String := none
  image_url : Option String := none
deriving DecidableEq

/-- `SearchResponse` from `src/api/core/models.py`. -/
structure SearchResponse where
  results : List SearchResult
  query : String
  processing_time : Rat
deriving DecidableEq

/-- `HealthResponse` from `src/api/core/models.py`. -/
structure HealthResponse where
  status : String
  qdrant_connected : Bool
  clip_model_loaded : Bool
deriving DecidableEq

/-- An `HTTPException` as raised by `search_images` in `src/api/main.py`. -/
structure HTTPError where
  status_code : Nat
  detail : String
deriving DecidableEq

/-- `settings.get_image_dir()` resolved to its default `data/images`
(`src/api/core/config.py`); the directory string plays no role in any claim. -/
def image_dir : String := "data/images"

/-- `get_image_path` from `src/api/utils/image_utils.py`:
`os.path.join(settings.get_image_dir(), filename)`. -/
def get_image_path (filename : String) : String :=
  image_dir ++ "/" ++ filename

/-- `QdrantService.search_similar` (`src/api/services/qdrant_client.py`, lines
80–104).  `clientSearch` is the underlying `self.client.search` call, taking the
query vector and the `limit` (`top_k`); an `.error` outcome models the client
raising or timing out.  The `try` body rebuilds each hit as a dict of
`id`/`score`/`payload`; the `except` clause logs and returns the empty list. -/
def search_similar (clientSearch : List Rat → Int → Except String (List ScoredPoint))
    (query_vector : List Rat) (top_k : Int) : List ScoredPoint :=
  match clientSearch query_vector top_k with
  | Except.ok search_results =>
      search_results.map (fun r => ⟨r.id, r.score, r.payload_filename⟩)
  | Except.error _ => []

/-- `ExplanationGenerator.generate_explanation`
(`src/api/services/explanation_generator.py`, lines 18–56).  `callOpenAI` models
the body of the `try` block (base64-encode the image, call the OpenAI API) for a
given `(image_path, query)`; any exception from it is caught and mapped to
`None`. -/
def generate_explanation (callOpenAI : String → String → Except String String)
    (image_path : String) (query : String) : Option String :=
  match callOpenAI image_path query with
  | Except.ok explanation => some explanation
  | Except.error _ => none

/-- The `/search` endpoint `search_images` (`src/api/main.py`, lines 56–105).

* `get_text_embedding` models `clip_client.get_text_embedding`, which re-raises
  any internal failure (`src/api/services/clip_client.py`, lines 50–62);
* `clientSearch` is the Qdrant client's search call, consumed through
  `search_similar` (which catches its errors internally);
* `explainFn` is `explanation_generator.generate_explanation`, a total function
  into `Option String` because it catches its own errors;
* `elapsed` is the measured `time.time() - start_time`.

The surrounding `try`/`except` turns any exception into an
`HTTPException(500, "Search failed: ...")`; in this model only the embedding
step can raise. -/
def search_images (get_text_embedding : String → Except String (List Rat))
    (clientSearch : List Rat → Int → Except String (List ScoredPoint))
    (explainFn : String → String → Option String)
    (elapsed : Rat) (request : SearchRequest) : Except HTTPError SearchResponse :=
  match get_text_embedding request.query with
  | Except.error e => Except.error ⟨500, "Search failed: " ++ e⟩
  | Except.ok query_embedding =>
      let search_results := search_similar clientSearch query_embedding request.top_k
      let results := search_results.map (fun result =>
        let filename := result.payload_filename
        let image_path := get_image_path filename
        ({ image_id := toString result.id
           filename := filename
           score := result.score
           explanation := explainFn image_path request.query
           image_url := some ("/images/" ++ filename) } : SearchResult))
      Except.ok { results := results, query := request.query, processing_time := elapsed }

/-- A point persisted in a collection, as built by the indexing script:
`PointStruct(id=..., vector=..., payload={"filename": ...})`. -/
structure Point where
  id : Nat
  vector : List Rat
  payload_filename : String
deriving DecidableEq

/-- A collection held by the Qdrant server: name, configured vector
dimensionality (`VectorParams.size`; the distance metric is always COSINE in
this code base and is omitted), and its stored points. -/
structure Collection where
  name : String
  dim : Nat
  points : List Point
deriving DecidableEq

/-- The state of the Qdrant server visible to this code base: its list of
collections (`client.get_collections()`). -/
structure StoreState where
  collections : List Collection
deriving DecidableEq

/-- `client.create_collection(collection_name, vectors_config=VectorParams(size, COSINE))`:
adds a fresh, empty collection. -/
def create_collection (s : StoreState) (name : String) (dim : Nat) : StoreState :=
  { collections := s.collections ++ [⟨name, dim, []⟩] }

/-- `client.recreate_collection(...)` as called by the indexing script: drops any
existing collection of that name and creates a fresh empty one. -/
def recreate_collection (s : StoreState) (name : String) (dim : Nat) : StoreState :=
  { collections := s.collections.filter (fun c => c.name ≠ name) ++ [⟨name, dim, []⟩] }

/-- `QdrantService.ensure_collection` (`src/api/services/qdrant_client.py`, lines
31–54).  The `try` body lists the collection names and creates the collection
only when its name is absent; otherwise it only logs "already exists".  There is
no code path that inspects the existing collection's dimensionality or raises a
configuration error of its own, so with a reachable client the result is always
`.ok` (the `except` clauses merely re-raise client-transport failures, which are
outside this model).  `collection_name` is `settings.QDRANT_COLLECTION_NAME` and
`embedding_size` is `settings.EMBEDDING_SIZE`. -/
def ensure_collection (collection_name : String) (embedding_size : Nat)
    (s : StoreState) : Except String StoreState :=
  let collection_names := s.collections.map Collection.name
  if collection_name ∈ collection_names then Except.ok s
  else Except.ok (create_collection s collection_name embedding_size)

/-! ## The indexing script (`src/scripts/generate_embeddings.py`) -/

/-- Python's `str.lower()`, character by character. -/
def str_toLower (s : String) : String := ⟨s.data.map Char.toLower⟩

/-- Python's `s.endswith(suffix)`: the suffix's characters are a suffix of the
string's characters. -/
def str_endsWith (s suffix : String) : Bool := List.isSuffixOf suffix.data s.data

/-- The extension test of the script's enumeration (line 49):
`f.lower().endswith((".jpg", ".jpeg", ".png", ".webp"))`. -/
def script_image_filter (f : String) : Bool :=
  str_endsWith (str_toLower f) ".jpg" || str_endsWith (str_toLower f) ".jpeg" ||
    str_endsWith (str_toLower f) ".png" || str_endsWith (str_toLower f) ".webp"

/-- The script's enumeration step (line 49): a list comprehension over
`os.listdir(Config.IMAGE_DIR)` — the resulting list keeps the listing's order
(no `sorted` call).  `listing` models the `os.listdir` result. -/
def script_enumerate (listing : List String) : List String :=
  listing.filter script_image_filter

/-- The extension allowlist of `get_image_files` in `src/api/utils/image_utils.py`. -/
def image_extensions : List String :=
  [".jpg", ".jpeg", ".png", ".bmp", ".tiff", ".webp"]

/-- The extension test of `get_image_files`:
`any(filename.lower().endswith(ext) for ext in image_extensions)`. -/
def utils_image_filter (f : String) : Bool :=
  image_extensions.any (fun ext => str_endsWith (str_toLower f) ext)

/-- `get_image_files` (`src/api/utils/image_utils.py`, lines 6–17): filter the
directory listing by the six-extension allowlist (case-insensitively), join each
name with the image directory, and return the result `sorted`.  Python's stable
`sorted` is modelled by insertion sort under the string order. -/
def get_image_files (dir : String) (listing : List String) : List String :=
  List.insertionSort (· ≤ ·)
    ((listing.filter utils_image_filter).map (fun f => dir ++ "/" ++ f))

/-- Step 2 of the script's `main` (lines 31–37): it unconditionally calls
`client.recreate_collection("image_embeddings", VectorParams(768, COSINE))` —
there is no flag, argument or mode check guarding the call. -/
def script_setup_collection (s : StoreState) : StoreState :=
  recreate_collection s "image_embeddings" 768

/-- The per-batch loop of the script's `main` (lines 58–93), with
`batch_size = 16`.  `decode` models whether `Image.open(path).convert("RGB")`
succeeds for a file (its `except` clause logs a warning and `continue`s);
`embed` models the CLIP batch embedding, which yields one vector per surviving
image in order.  The result is the list of all points sent to `client.upsert`
across every batch (upserts are assumed to succeed — a store outage aborts the
run through the outer `try` and is outside this model) together with the number
of skipped (logged) decode failures.  `point_id_counter` starts at 0 and grows
by the number of points of each batch. -/
def runBatches (decode : String → Bool) (embed : String → List Rat) :
    List String → Nat → List Point × Nat
  | [], _ => ([], 0)
  | f :: fs, point_id_counter =>
      let batch_files := (f :: fs).take 16
      let rest := (f :: fs).drop 16
      let valid_files := batch_files.filter decode
      let points_to_upsert := valid_files.enum.map
        (fun p => (⟨point_id_counter + p.1, embed p.2, p.2⟩ : Point))
      let recResult := runBatches decode embed rest (point_id_counter + points_to_upsert.length)
      (points_to_upsert ++ recResult.1,
        (batch_files.length - valid_files.length) + recResult.2)
termination_by files _ => files.length

decreasing_by
  simp [List.length_drop]
  omega

/-! ## Health probes -/

/-- The value returned by `QdrantService.get_collection_info`
(`src/api/services/qdrant_client.py`, lines 106–120): Python's `None`, the
parsed collection info (modelled by its points count), or the literal string
`"Exists"` returned from the `except` clause. -/
inductive CollectionProbe where
  | absent
  | info (points_count : Nat)
  | existsSentinel
deriving DecidableEq, BEq

/-- `QdrantService.get_collection_info` (lines 106–120).  `existsOutcome` models
`self.client.collection_exists(...)` and `getOutcome` models
`self.client.get_collection(...)`; an `.error` outcome is the call raising
(connection failure or Pydantic validation failure).  Any exception inside the
`try` is caught and the function returns the string `"Exists"`. -/
def get_collection_info (existsOutcome : Except String Bool)
    (getOutcome : Except String Nat) : CollectionProbe :=
  match existsOutcome with
  | Except.error _ => CollectionProbe.existsSentinel
  | Except.ok false => CollectionProbe.absent
  | Except.ok true =>
      match getOutcome with
      | Except.ok info => CollectionProbe.info info
      | Except.error _ => CollectionProbe.existsSentinel

/-- `QdrantService.check_health` (lines 122–128): `True` iff
`self.client.get_collections()` does not raise. -/
def check_health (get_collections_outcome : Except String Unit) : Bool :=
  match get_collections_outcome with
  | Except.ok _ => true
  | Except.error _ => false

/-- The `/` endpoint `health_check` (`src/api/main.py`, lines 41–54): the
`status` field is the literal `"healthy"`; `qdrant_connected` is
`get_collection_info(...) is not None` (the surrounding `try` is dead code in
this model because `get_collection_info` never raises); `clip_model_loaded` is
`clip_client.model is not None`. -/
def health_check (existsOutcome : Except String Bool)
    (getOutcome : Except String Nat) (clip_model_loaded : Bool) : HealthResponse :=
  let qdrant_info := get_collection_info existsOutcome getOutcome
  { status := "healthy"
    qdrant_connected := qdrant_info != CollectionProbe.absent
    clip_model_loaded := clip_model_loaded }

/-! ## Theorems -/

/-- How one search hit is turned into a `SearchResult` by the loop body of
`search_images` (`src/api/main.py`, lines 74–92). -/
def mkSearchResult (explainFn : String → String → Option String) (query : String)
    (r : ScoredPoint) : SearchResult :=
  { image_id := toString r.id
    filename := r.payload_filename
    score := r.score
    explanation := explainFn (get_image_path r.payload_filename) query
    image_url := some ("/images/" ++ r.payload_filename) }

/-- When the query embedding succeeds, `search_images` returns `200 OK` with one
`SearchResult` per search hit, in search order. -/
lemma search_images_ok (get_text_embedding : String → Except String (List Rat))
    (clientSearch : List Rat → Int → Except String (List ScoredPoint))
    (explainFn : String → String → Option String)
    (elapsed : Rat) (request : SearchRequest) (emb : List Rat)
    (h : get_text_embedding request.query = Except.ok emb) :
    search_images get_text_embedding clientSearch explainFn elapsed request
      = Except.ok
          { results := (search_similar clientSearch emb request.top_k).map
              (mkSearchResult explainFn request.query)
            query := request.query
            processing_time := elapsed } := by
  simp only [search_images, h]
  rfl

/-- Claim C1: for every query whose search returns an ordered list of hits, the
assembled response lists the hits in exactly the order of the search results
(ids and scores alike), and this order does not depend on the explanation
function — no re-ranking occurs. -/
theorem response_order_matches_search_order
    (get_text_embedding : String → Except String (List Rat))
    (clientSearch : List Rat → Int → Except String (List ScoredPoint))
    (explainA explainB : String → String → Option String)
    (elapsedA elapsedB : Rat) (request : SearchRequest) (emb : List Rat)
    (h : get_text_embedding request.query = Except.ok emb) :
    ∃ respA respB,
      search_images get_text_embedding clientSearch explainA elapsedA request
        = Except.ok respA ∧
      search_images get_text_embedding clientSearch explainB elapsedB request
        = Except.ok respB ∧
      respA.results.map SearchResult.image_id
        = (search_similar clientSearch emb request.top_k).map (fun r => toString r.id) ∧
      respA.results.map SearchResult.score
        = (search_similar clientSearch emb request.top_k).map ScoredPoint.score ∧
      respA.results.map SearchResult.image_id = respB.results.map SearchResult.image_id ∧
      respA.results.map SearchResult.filename = respB.results.map SearchResult.filename := by
  refine ⟨_, _, search_images_ok _ _ explainA _ _ _ h,
    search_images_ok _ _ explainB _ _ _ h, ?_, ?_, ?_, ?_⟩ <;>
    simp [List.map_map, mkSearchResult, Function.comp]

/-- Concrete instance of claim C1: three hits `A`, `B`, `C` with scores
`0.9`, `0.8`, `0.7`; one run where every explanation fails and one where every
explanation succeeds produce the hit order `A`, `B`, `C` both times. -/
theorem response_order_matches_search_order_witness :
    ∃ respA respB,
      search_images (fun _ => Except.ok [1])
        (fun _ _ => Except.ok
          [⟨1, 9/10, "a.jpg"⟩, ⟨2, 8/10, "b.jpg"⟩, ⟨3, 7/10, "c.jpg"⟩])
        (fun _ _ => none) 0 ⟨"red car", 5⟩ = Except.ok respA ∧
      search_images (fun _ => Except.ok [1])
        (fun _ _ => Except.ok
          [⟨1, 9/10, "a.jpg"⟩, ⟨2, 8/10, "b.jpg"⟩, ⟨3, 7/10, "c.jpg"⟩])
        (fun _ _ => some "relevant") 0 ⟨"red car", 5⟩ = Except.ok respB ∧
      respA.results.map SearchResult.image_id
        = (search_similar
            (fun _ _ => Except.ok
              [⟨1, 9/10, "a.jpg"⟩, ⟨2, 8/10, "b.jpg"⟩, ⟨3, 7/10, "c.jpg"⟩])
            [1] 5).map (fun r => toString r.id) ∧
      respA.results.map SearchResult.score
        = (search_similar
            (fun _ _ => Except.ok
              [⟨1, 9/10, "a.jpg"⟩, ⟨2, 8/10, "b.jpg"⟩, ⟨3, 7/10, "c.jpg"⟩])
            [1] 5).map ScoredPoint.score ∧
      respA.results.map SearchResult.image_id = respB.results.map SearchResult.image_id ∧
      respA.results.map SearchResult.filename = respB.results.map SearchResult.filename :=
  response_order_matches_search_order (fun _ => Except.ok [1])
    (fun _ _ => Except.ok [⟨1, 9/10, "a.jpg"⟩, ⟨2, 8/10, "b.jpg"⟩, ⟨3, 7/10, "c.jpg"⟩])
    (fun _ _ => none) (fun _ _ => some "relevant") 0 0 ⟨"red car", 5⟩ [1] rfl

/-- Claim C2: a failure of the explanation provider for one hit is non-fatal.
The request still returns `200 OK` with every hit present (filename, score and
image URL intact, in order); the failing hit's explanation is `none`; every
other hit's explanation is exactly what the provider returned for it. -/
theorem explanation_failure_is_nonfatal
    (get_text_embedding : String → Except String (List Rat))
    (clientSearch : List Rat → Int → Except String (List ScoredPoint))
    (callOpenAI : String → String → Except String String)
    (elapsed : Rat) (request : SearchRequest) (emb : List Rat)
    (hits : List ScoredPoint) (i : Nat) (e : String)
    (hemb : get_text_embedding request.query = Except.ok emb)
    (hsearch : search_similar clientSearch emb request.top_k = hits)
    (hi : i < hits.length)
    (hfail : callOpenAI (get_image_path (hits.get ⟨i, hi⟩).payload_filename) request.query
      = Except.error e) :
    ∃ resp,
      search_images get_text_embedding clientSearch (generate_explanation callOpenAI)
          elapsed request = Except.ok resp ∧
      resp.results.length = hits.length ∧
      resp.results.map SearchResult.filename = hits.map ScoredPoint.payload_filename ∧
      resp.results.map SearchResult.score = hits.map ScoredPoint.score ∧
      resp.results.map SearchResult.image_url
        = hits.map (fun r => some ("/images/" ++ r.payload_filename)) ∧
      resp.results[i]?.map SearchResult.explanation = some none ∧
      ∀ j : Nat, j ≠ i →
        resp.results[j]?.map SearchResult.explanation
          = hits[j]?.map (fun r =>
              generate_explanation callOpenAI (get_image_path r.payload_filename)
                request.query) := by
  subst hsearch
  refine ⟨_, search_images_ok _ _ _ _ _ _ hemb, ?_, ?_, ?_, ?_, ?_, ?_⟩
  · simp
  · simp [List.map_map, mkSearchResult, Function.comp]
  · simp [List.map_map, mkSearchResult, Function.comp]
  · simp [List.map_map, mkSearchResult, Function.comp]
  · rw [List.get_eq_getElem] at hfail
    rw [List.getElem?_map, List.getElem?_eq_getElem hi]
    simp [mkSearchResult, generate_explanation, hfail]
  · intro j _
    rw [List.getElem?_map]
    cases hj : (search_similar clientSearch emb request.top_k)[j]? with
    | none => rfl
    | some r => simp [mkSearchResult]

/-- Concrete instance of claim C2: hits `A`, `B`, `C`; the provider fails for
`B` only; the response still has 3 hits, `B.explanation` is `none`, and `A` and
`C` keep their explanations. -/
theorem explanation_failure_is_nonfatal_witness :
    ∃ resp,
      search_images (fun _ => Except.ok [1])
        (fun _ _ => Except.ok
          [⟨1, 9/10, "a.jpg"⟩, ⟨2, 8/10, "b.jpg"⟩, ⟨3, 7/10, "c.jpg"⟩])
        (generate_explanation (fun p _ =>
          if p = "data/images/b.jpg" then Except.error "api down"
          else Except.ok "matches the query"))
        0 ⟨"red car", 5⟩ = Except.ok resp ∧
      resp.results.length
        = ([⟨1, 9/10, "a.jpg"⟩, ⟨2, 8/10, "b.jpg"⟩, ⟨3, 7/10, "c.jpg"⟩]
            : List ScoredPoint).length ∧
      resp.results.map SearchResult.filename
        = ([⟨1, 9/10, "a.jpg"⟩, ⟨2, 8/10, "b.jpg"⟩, ⟨3, 7/10, "c.jpg"⟩]
            : List ScoredPoint).map ScoredPoint.payload_filename ∧
      resp.results.map SearchResult.score
        = ([⟨1, 9/10, "a.jpg"⟩, ⟨2, 8/10, "b.jpg"⟩, ⟨3, 7/10, "c.jpg"⟩]
            : List ScoredPoint).map ScoredPoint.score ∧
      resp.results.map SearchResult.image_url
        = ([⟨1, 9/10, "a.jpg"⟩, ⟨2, 8/10, "b.jpg"⟩, ⟨3, 7/10, "c.jpg"⟩]
            : List ScoredPoint).map (fun r => some ("/images/" ++ r.payload_filename)) ∧
      resp.results[1]?.map SearchResult.explanation = some none ∧
      ∀ j : Nat, j ≠ 1 →
        resp.results[j]?.map SearchResult.explanation
          = (([⟨1, 9/10, "a.jpg"⟩, ⟨2, 8/10, "b.jpg"⟩, ⟨3, 7/10, "c.jpg"⟩]
              : List ScoredPoint))[j]?.map (fun r =>
                generate_explanation (fun p _ =>
                  if p = "data/images/b.jpg" then Except.error "api down"
                  else Except.ok "matches the query")
                  (get_image_path r.payload_filename) "red car") :=
  explanation_failure_is_nonfatal (fun _ => Except.ok [1])
    (fun _ _ => Except.ok [⟨1, 9/10, "a.jpg"⟩, ⟨2, 8/10, "b.jpg"⟩, ⟨3, 7/10, "c.jpg"⟩])
    (fun p _ =>
      if p = "data/images/b.jpg" then Except.error "api down"
      else Except.ok "matches the query")
    0 ⟨"red car", 5⟩ [1]
    [⟨1, 9/10, "a.jpg"⟩, ⟨2, 8/10, "b.jpg"⟩, ⟨3, 7/10, "c.jpg"⟩] 1 "api down"
    rfl rfl (by decide) rfl

/-- Counterexample to claim C3 as stated: with a healthy embedding step and a
vector-store search call that raises (`.error "timeout"`), the request does not
fail — `search_images` returns `200 OK` with an empty hit list.  The store
failure was recovered into an empty result list, not surfaced as a
service-level failure. -/
theorem store_failure_not_fatal_counterexample :
    search_images (fun _ => Except.ok [1]) (fun _ _ => Except.error "timeout")
        (fun _ _ => none) 0 ⟨"red car", 5⟩
      = Except.ok { results := [], query := "red car", processing_time := 0 } := rfl

/-- Claim C3 as amended: a failure of the vector-store call at the search step
is caught inside `search_similar` and recovered into an empty hit list, so the
request succeeds with zero hits; only a failure at the query-embedding step is
fatal to the request and surfaced as an HTTP 500 service failure. -/
theorem store_failure_recovered_embedding_failure_fatal
    (get_text_embedding : String → Except String (List Rat))
    (clientSearch : List Rat → Int → Except String (List ScoredPoint))
    (explainFn : String → String → Option String)
    (elapsed : Rat) (request : SearchRequest) (emb : List Rat) (e : String) :
    (get_text_embedding request.query = Except.ok emb →
      clientSearch emb request.top_k = Except.error e →
        search_images get_text_embedding clientSearch explainFn elapsed request
          = Except.ok { results := [], query := request.query, processing_time := elapsed }) ∧
    (get_text_embedding request.query = Except.error e →
      search_images get_text_embedding clientSearch explainFn elapsed request
        = Except.error ⟨500, "Search failed: " ++ e⟩) := by
  constructor
  · intro hemb hstore
    rw [search_images_ok _ _ _ _ _ _ hemb]
    simp [search_similar, hstore]
  · intro hemb
    simp [search_images, hemb]

/-- Both parts of the amended claim C3 at concrete inputs: a store timeout
yields `200 OK` with no hits; an embedding failure yields the 500 error. -/
theorem store_failure_recovered_embedding_failure_fatal_witness :
    search_images (fun _ => Except.ok [1]) (fun _ _ => Except.error "timeout")
        (fun _ _ => none) 0 ⟨"red car", 5⟩
      = Except.ok { results := [], query := "red car", processing_time := 0 } ∧
    search_images (fun _ => Except.error "model not loaded")
        (fun _ _ => Except.ok []) (fun _ _ => none) 0 ⟨"red car", 5⟩
      = Except.error ⟨500, "Search failed: " ++ "model not loaded"⟩ :=
  ⟨(store_failure_recovered_embedding_failure_fatal (fun _ => Except.ok [1])
      (fun _ _ => Except.error "timeout") (fun _ _ => none) 0 ⟨"red car", 5⟩
      [1] "timeout").1 rfl rfl,
    (store_failure_recovered_embedding_failure_fatal (fun _ => Except.error "model not loaded")
      (fun _ _ => Except.ok []) (fun _ _ => none) 0 ⟨"red car", 5⟩
      [1] "model not loaded").2 rfl⟩

/-- Counterexample to claim C8: `SearchRequest` places no bound on `top_k` and
the boundary performs no validation, so a request with the non-positive
`top_k = 0` reaches the vector-store search call with exactly that value.  The
store stub answers with a marker hit if and only if it receives `0`, and the
marker is visible in the response. -/
theorem top_k_not_bounded_counterexample :
    search_images (fun _ => Except.ok [1])
        (fun _ k => if k = 0 then Except.ok [⟨7, 1, "saw-zero.jpg"⟩] else Except.ok [])
        (fun _ _ => none) 0 ⟨"red car", 0⟩
      = Except.ok
          { results := [⟨"7", "saw-zero.jpg", 1, none, some "/images/saw-zero.jpg"⟩],
            query := "red car", processing_time := 0 } := rfl

/-- Claim C8 as amended: the boundary does not bound or validate `top_k` at all.
`search_images` consults the vector store only at the caller-supplied
`request.top_k`, whatever it is: two stores that agree at `request.top_k`
(and may differ everywhere else, e.g. at every clamped value) produce identical
responses. -/
theorem top_k_passed_through_unvalidated
    (get_text_embedding : String → Except String (List Rat))
    (clientSearchA clientSearchB : List Rat → Int → Except String (List ScoredPoint))
    (explainFn : String → String → Option String)
    (elapsed : Rat) (request : SearchRequest)
    (hagree : ∀ v, clientSearchA v request.top_k = clientSearchB v request.top_k) :
    search_images get_text_embedding clientSearchA explainFn elapsed request
      = search_images get_text_embedding clientSearchB explainFn elapsed request := by
  unfold search_images
  cases get_text_embedding request.query with
  | error e => rfl
  | ok emb => simp only [search_similar, hagree]

/-- Instance of the amended claim C8 at `top_k = -3`: two stores that agree at
`-3` but differ at the in-range value `1` give the same response — the search
call is consulted at the raw `-3` only. -/
theorem top_k_passed_through_unvalidated_witness :
    search_images (fun _ => Except.ok [1])
        (fun _ k => if k = -3 then Except.ok [] else Except.ok [⟨1, 1, "a.jpg"⟩])
        (fun _ _ => none) 0 ⟨"red car", -3⟩
      = search_images (fun _ => Except.ok [1]) (fun _ _ => Except.ok [])
          (fun _ _ => none) 0 ⟨"red car", -3⟩ :=
  top_k_passed_through_unvalidated (fun _ => Except.ok [1])
    (fun _ k => if k = -3 then Except.ok [] else Except.ok [⟨1, 1, "a.jpg"⟩])
    (fun _ _ => Except.ok []) (fun _ _ => none) 0 ⟨"red car", -3⟩ (fun _ => rfl)

/-- Counterexample to claim C4 as stated: the store already holds a collection
named `image_embeddings` with dimensionality 512, `ensure_collection` is called
with the configured `embedding_size` 768, and — although 512 ≠ 768 — no
configuration error is signalled: the call is a plain no-op, because the code
only compares collection names and never inspects dimensionality. -/
theorem ensure_collection_ignores_dimension_counterexample :
    ensure_collection "image_embeddings" 768 ⟨[⟨"image_embeddings", 512, []⟩]⟩
        = Except.ok ⟨[⟨"image_embeddings", 512, []⟩]⟩ ∧ (512 : Nat) ≠ 768 :=
  ⟨rfl, by decide⟩

/-- Claim C4 as amended: `ensure_collection` is idempotent — it creates the
collection only when its name is absent, a second call is a no-op, no error is
ever signalled, and no duplicate is created (afterwards exactly one collection
carries the name, or as many as already did).  However it is a no-op whenever
the name exists, for EVERY requested dimensionality: an existing collection with
mismatched dimensionality is not detected and no configuration error exists in
the code. -/
theorem ensure_collection_idempotent_without_dim_check
    (name : String) (dim : Nat) (s : StoreState) :
    ∃ t, ensure_collection name dim s = Except.ok t ∧
      ensure_collection name dim t = Except.ok t ∧
      t.collections.countP (fun c => c.name == name)
        = max 1 (s.collections.countP (fun c => c.name == name)) ∧
      ∀ dimB, name ∈ s.collections.map Collection.name →
        ensure_collection name dimB s = Except.ok s := by
  by_cases h : name ∈ s.collections.map Collection.name
  · refine ⟨s, by simp [ensure_collection, h], by simp [ensure_collection, h], ?_,
      fun dimB hmem => by simp [ensure_collection, hmem]⟩
    have hpos : 0 < s.collections.countP (fun c => c.name == name) := by
      rw [List.countP_pos_iff]
      obtain ⟨c, hc, hcn⟩ := List.mem_map.mp h
      exact ⟨c, hc, by simp [hcn]⟩
    omega
  · refine ⟨create_collection s name dim, by simp [ensure_collection, h], ?_, ?_,
      fun dimB hmem => by simp [ensure_collection, hmem]⟩
    · have hmem : name ∈ (create_collection s name dim).collections.map Collection.name := by
        simp [create_collection]
      simp [ensure_collection, hmem]
    · have h0 : s.collections.countP (fun c => c.name == name) = 0 := by
        rw [List.countP_eq_zero]
        intro c hc hcn
        exact h (List.mem_map.mpr ⟨c, hc, by simpa using hcn⟩)
      simp [create_collection, List.countP_append, h0]

/-- Instance of the amended claim C4: against a store whose only collection is
`image_embeddings` with dimensionality 512, setup with dimensionality 768
returns the state unchanged, a second call does too, the name stays unique, and
the mismatched request 768 is accepted as a no-op. -/
theorem ensure_collection_idempotent_without_dim_check_witness :
    ∃ t, ensure_collection "image_embeddings" 768 ⟨[⟨"image_embeddings", 512, []⟩]⟩
        = Except.ok t ∧
      ensure_collection "image_embeddings" 768 t = Except.ok t ∧
      t.collections.countP (fun c => c.name == "image_embeddings")
        = max 1 ((⟨[⟨"image_embeddings", 512, []⟩]⟩ : StoreState).collections.countP
            (fun c => c.name == "image_embeddings")) ∧
      ∀ dimB, "image_embeddings"
          ∈ (⟨[⟨"image_embeddings", 512, []⟩]⟩ : StoreState).collections.map Collection.name →
        ensure_collection "image_embeddings" dimB ⟨[⟨"image_embeddings", 512, []⟩]⟩
          = Except.ok ⟨[⟨"image_embeddings", 512, []⟩]⟩ :=
  ensure_collection_idempotent_without_dim_check "image_embeddings" 768
    ⟨[⟨"image_embeddings", 512, []⟩]⟩

/-- Counterexample to claim C5: an ordinary run of the indexing script destroys
the existing collection before step 1.  Starting from a store whose
`image_embeddings` collection holds one point, the script's unconditional
`recreate_collection` call (there is no mode flag or opt-in anywhere in
`main`) leaves the collection empty. -/
theorem script_setup_destroys_collection_counterexample :
    (script_setup_collection
        ⟨[⟨"image_embeddings", 768, [⟨0, [1], "a.jpg"⟩]⟩]⟩).collections
      = [⟨"image_embeddings", 768, []⟩] := by decide

/-- Claim C5 as amended: the indexing script has a single mode — full rebuild.
Every run unconditionally drops and recreates `image_embeddings` (with
dimensionality 768) before processing: afterwards the collection exists, is the
only one with that name, and is empty regardless of what the store held, so any
previously indexed points are destroyed on every run; no incremental-append
mode or opt-in flag exists. -/
theorem script_setup_unconditionally_recreates (s : StoreState) :
    (⟨"image_embeddings", 768, []⟩ : Collection) ∈ (script_setup_collection s).collections ∧
    (script_setup_collection s).collections.countP
      (fun c => c.name == "image_embeddings") = 1 ∧
    ∀ c ∈ (script_setup_collection s).collections,
      c.name = "image_embeddings" → c.points = [] := by
  refine ⟨by simp [script_setup_collection, recreate_collection], ?_, ?_⟩
  · simp only [script_setup_collection, recreate_collection, List.countP_append]
    rw [List.countP_filter]
    have hfalse : (fun (c : Collection) =>
        (c.name == "image_embeddings") && decide ¬(c.name = "image_embeddings"))
          = fun _ => false := by
      funext c
      by_cases hc : c.name = "image_embeddings" <;> simp [hc]
    rw [hfalse]
    simp
  · intro c hc hcn
    simp only [script_setup_collection, recreate_collection, List.mem_append,
      List.mem_filter, List.mem_singleton] at hc
    rcases hc with ⟨_, hname⟩ | hc
    · exact absurd hcn (by simpa using hname)
    · rw [hc]

/-- Instance of the amended claim C5 at a store that already holds one indexed
point: after the script's setup the collection exists, is unique, and its copy
in the new state is empty. -/
theorem script_setup_unconditionally_recreates_witness :
    (⟨"image_embeddings", 768, []⟩ : Collection)
        ∈ (script_setup_collection
            ⟨[⟨"image_embeddings", 768, [⟨0, [1], "a.jpg"⟩]⟩]⟩).collections ∧
    (script_setup_collection
        ⟨[⟨"image_embeddings", 768, [⟨0, [1], "a.jpg"⟩]⟩]⟩).collections.countP
      (fun c => c.name == "image_embeddings") = 1 ∧
    (⟨"image_embeddings", 768, []⟩ : Collection).points = [] :=
  ⟨(script_setup_unconditionally_recreates
      ⟨[⟨"image_embeddings", 768, [⟨0, [1], "a.jpg"⟩]⟩]⟩).1,
   (script_setup_unconditionally_recreates
      ⟨[⟨"image_embeddings", 768, [⟨0, [1], "a.jpg"⟩]⟩]⟩).2.1,
   (script_setup_unconditionally_recreates
      ⟨[⟨"image_embeddings", 768, [⟨0, [1], "a.jpg"⟩]⟩]⟩).2.2
     ⟨"image_embeddings", 768, []⟩ (by decide) rfl⟩

/-- Filtering a list equals filtering its first batch of 16 and the remainder
separately. -/
lemma filter_batch_split (l : List String) (p : String → Bool) :
    l.filter p = (l.take 16).filter p ++ (l.drop 16).filter p := by
  conv_lhs => rw [← List.take_append_drop 16 l]
  rw [List.filter_append]

/-- The filenames of the points built for one batch are the batch's surviving
files, whatever the id counter. -/
lemma batch_points_filenames (embed : String → List Rat) (l : List String) (c : Nat) :
    (l.enum.map (fun p => (⟨c + p.1, embed p.2, p.2⟩ : Point))).map Point.payload_filename
      = l := by
  rw [List.map_map]
  have hcomp : (Point.payload_filename ∘ fun p : Nat × String =>
      (⟨c + p.1, embed p.2, p.2⟩ : Point)) = Prod.snd := rfl
  rw [hcomp, List.enum_map_snd]

/-- Splitting a list's length along a Boolean filter. -/
lemma length_filter_not (p : String → Bool) (l : List String) :
    (l.filter p).length + (l.filter (fun a => !p a)).length = l.length := by
  induction l with
  | nil => rfl
  | cons a l ih => by_cases h : p a <;> simp [List.filter_cons, h] <;> omega

/-- Across every batch, the indexing run commits exactly the images that decode
(in order) and counts exactly the images that do not. -/
lemma runBatches_spec (decode : String → Bool) (embed : String → List Rat) :
    ∀ (n : Nat) (files : List String), files.length ≤ n → ∀ (counter : Nat),
      (runBatches decode embed files counter).1.map Point.payload_filename
        = files.filter decode ∧
      (runBatches decode embed files counter).2
        = (files.filter (fun f => !decode f)).length := by
  intro n
  induction n with
  | zero =>
      intro files hf counter
      have hnil : files = [] := List.length_eq_zero.mp (Nat.le_zero.mp hf)
      subst hnil
      simp [runBatches]
  | succ n ih =>
      intro files hf counter
      cases files with
      | nil => simp [runBatches]
      | cons f fs =>
          have hrest : ((f :: fs).drop 16).length ≤ n := by
            simp only [List.length_drop, List.length_cons]
            have hfs : fs.length ≤ n := by simpa using Nat.le_of_succ_le_succ hf
            omega
          simp only [runBatches]
          constructor
          · rw [List.map_append, batch_points_filenames,
              (ih _ hrest _).1]
            exact (filter_batch_split (f :: fs) decode).symm
          · rw [(ih _ hrest _).2, filter_batch_split (f :: fs) (fun f => !decode f),
              List.length_append]
            have hlen := length_filter_not decode ((f :: fs).take 16)
            omega

/-- Claim C6: during indexing, every image that fails to decode is skipped and
counted without aborting its batch or the run.  For any directory contents and
any decode behaviour, the committed records are exactly the successfully
decoded files of every batch, in order (so a batch of 16 with 2 decode failures
commits exactly 14 records and later batches are still processed); the skip
count is exactly the number of decode failures; committed plus skipped accounts
for every enumerated file. -/
theorem corrupt_images_skipped_without_aborting
    (decode : String → Bool) (embed : String → List Rat) (files : List String) :
    (runBatches decode embed files 0).1.map Point.payload_filename
      = files.filter decode ∧
    (runBatches decode embed files 0).1.length = (files.filter decode).length ∧
    (runBatches decode embed files 0).2
      = (files.filter (fun f => !decode f)).length ∧
    (runBatches decode embed files 0).1.length + (runBatches decode embed files 0).2
      = files.length := by
  obtain ⟨h1, h2⟩ := runBatches_spec decode embed files.length files le_rfl 0
  have hlen : (runBatches decode embed files 0).1.length = (files.filter decode).length := by
    rw [← h1, List.length_map]
  exact ⟨h1, hlen, h2, by rw [hlen, h2]; exact length_filter_not decode files⟩

/-- Counterexample to claim C7: the indexing pipeline
(`src/scripts/generate_embeddings.py`, line 49) does not use the six-extension
allowlist and does not sort.  From the listing
`["b.jpg", "a.jpg", "photo.bmp", "scan.tiff"]` it enumerates
`["b.jpg", "a.jpg"]`: the `.bmp` and `.tiff` files — both carrying an extension
of the claimed allowlist — are dropped, and the output keeps the listing order,
which is not sorted (`"b.jpg" > "a.jpg"`). -/
theorem script_enumeration_counterexample :
    script_enumerate ["b.jpg", "a.jpg", "photo.bmp", "scan.tiff"]
        = ["b.jpg", "a.jpg"] ∧
    str_endsWith (str_toLower "photo.bmp") ".bmp" = true ∧
    str_endsWith (str_toLower "scan.tiff") ".tiff" = true ∧
    ¬ ("b.jpg" : String) ≤ "a.jpg" := by
  refine ⟨by decide, by decide, by decide, ?_⟩
  rw [String.le_iff_toList_le]
  decide

/-- Claim C7 as amended: the indexing script enumerates with the four-extension
allowlist `.jpg/.jpeg/.png/.webp` (case-insensitive), rejecting `.bmp` and
`.tiff`, and preserves the directory-listing order without sorting (its output
is a subsequence of the listing).  The six-extension sorted enumeration lives
only in the unused helper `get_image_files`, whose output is sorted. -/
theorem script_enumeration_allowlist_and_order (listing : List String) (dir : String) :
    (script_enumerate listing).Sublist listing ∧
    script_image_filter "A.JPG" = true ∧
    script_image_filter "a.jpeg" = true ∧
    script_image_filter "a.PNG" = true ∧
    script_image_filter "a.webp" = true ∧
    script_image_filter "a.bmp" = false ∧
    script_image_filter "a.tiff" = false ∧
    utils_image_filter "a.bmp" = true ∧
    utils_image_filter "A.TIFF" = true ∧
    List.Sorted (· ≤ ·) (get_image_files dir listing) := by
  refine ⟨List.filter_sublist _, by decide, by decide, by decide, by decide,
    by decide, by decide, by decide, by decide, ?_⟩
  exact List.sorted_insertionSort _ _

/-- Counterexample to claim C9: when the `collection_exists` call itself raises
(for example because the connection is refused), `get_collection_info` returns
the `"Exists"` sentinel — a value indicating presence, not "absent" — and the
health endpoint consequently reports `qdrant_connected = true`. -/
theorem probe_error_reported_as_present_counterexample :
    get_collection_info (Except.error "connection refused")
        (Except.error "connection refused") = CollectionProbe.existsSentinel ∧
    (health_check (Except.error "connection refused")
        (Except.error "connection refused") false).qdrant_connected = true :=
  ⟨rfl, rfl⟩

/-- Claim C9 as amended: the probes are total — no outcome of the underlying
client calls makes them raise (`check_health` and `get_collection_info` return
a plain value on every outcome, so no exception reaches their callers), and
`check_health` maps every internal error to `false`.  But `get_collection_info`
maps an internal error — whether in the existence check or in the info fetch —
to the truthy `"Exists"` sentinel rather than to "absent"; "absent" arises only
from a successful existence check answering `false`. -/
theorem probes_never_raise_but_errors_map_to_sentinel
    (e : String) (getOutcome : Except String Nat) (info : Nat) :
    check_health (Except.error e) = false ∧
    check_health (Except.ok ()) = true ∧
    get_collection_info (Except.error e) getOutcome = CollectionProbe.existsSentinel ∧
    get_collection_info (Except.ok true) (Except.error e)
      = CollectionProbe.existsSentinel ∧
    get_collection_info (Except.ok false) getOutcome = CollectionProbe.absent ∧
    get_collection_info (Except.ok true) (Except.ok info) = CollectionProbe.info info :=
  ⟨rfl, rfl, rfl, rfl, rfl, rfl⟩

/-- Claim C10: the health endpoint's `status` field is the constant string
`"healthy"` for every outcome of the store probes and every state of the CLIP
model; degraded state is visible only through the `qdrant_connected` and
`clip_model_loaded` booleans, which are determined by the probe result and the
model state respectively. -/
theorem health_status_always_healthy
    (existsOutcome : Except String Bool) (getOutcome : Except String Nat)
    (clip_loaded : Bool) :
    (health_check existsOutcome getOutcome clip_loaded).status = "healthy" ∧
    (health_check existsOutcome getOutcome clip_loaded).clip_model_loaded = clip_loaded ∧
    (health_check existsOutcome getOutcome clip_loaded).qdrant_connected
      = (get_collection_info existsOutcome getOutcome != CollectionProbe.absent) :=
  ⟨rfl, rfl, rfl⟩

end VIS
